import Mathlib

set_option autoImplicit false

/-!
Shallow embedding of the job-orchestration core of the trading-bot repository:
the Redis-backed store (job hashes, per-type FIFO queues, pub/sub), the
worker dispatch/retry logic of `services/worker/src/worker.py`, the circuit
breaker of `services/worker/src/worker_old.py`, the processor-side progress
update of `services/worker/src/processors/base_processor.py`, and the
submission handlers of `services/api/src/main.py`.
-/

namespace TradingBot

/-- A Redis hash (string fields to string values), as returned by HGETALL with
`decode_responses=True`.  Modelled as an association list; `hget` finds the
first matching field and `hsetField` upserts in place. -/
abbrev Hash := List (String × String)

/-- Redis HGET on a hash value. -/
def Hash.hget : Hash → String → Option String
  | [], _ => none
  | (k, v) :: rest, f => if k = f then some v else Hash.hget rest f

/-- Redis HSET of a single field on a hash value (upsert). -/
def Hash.hsetField : Hash → String → String → Hash
  | [], f, v => [(f, v)]
  | (k, w) :: rest, f, v =>
      if k = f then (k, v) :: rest else (k, w) :: Hash.hsetField rest f v

/-- Redis HSET with a `mapping=` dict: each field of the mapping is upserted. -/
def Hash.hsetMap (h : Hash) (mapping : Hash) : Hash :=
  mapping.foldl (fun acc p => Hash.hsetField acc p.1 p.2) h

/-- The shared Redis state used by the job core: job hashes keyed by job id
(source key `job:{job_id}`), lists keyed by queue name (`queue:migration`,
`queue:backtest`, `queue:dlq`), and a log of published pub/sub messages
(channel, payload fields of the serialized JSON object), most recent first. -/
structure Store where
  jobs : String → Hash
  queues : String → List String
  published : List (String × Hash)

def Store.empty : Store := ⟨fun _ => [], fun _ => [], []⟩

/-- `redis.hgetall(f"job:{job_id}")`. -/
def Store.hgetallJob (st : Store) (jobId : String) : Hash := st.jobs jobId

/-- `redis.hget(f"job:{job_id}", field)`. -/
def Store.hgetJob (st : Store) (jobId field : String) : Option String :=
  Hash.hget (st.jobs jobId) field

/-- `redis.hset(f"job:{job_id}", mapping=...)`; creates the key if absent. -/
def Store.hsetJob (st : Store) (jobId : String) (mapping : Hash) : Store :=
  { st with jobs := fun j => if j = jobId then Hash.hsetMap (st.jobs jobId) mapping else st.jobs j }

/-- Decimal parse of a digit string (the only shape of value ever stored in
the numeric fields of a job record). -/
def parseNat (s : String) : Nat :=
  s.data.foldl (fun n c => n * 10 + (c.toNat - 48)) 0

/-- `int(value or 0)` on an optional decimal string, as the worker reads
`retry_count`; a missing field reads as 0. -/
def readNat (o : Option String) : Nat :=
  match o with
  | none => 0
  | some s => parseNat s

/-- `redis.hincrby(f"job:{job_id}", field, n)`: atomic increment of a decimal
field, missing treated as 0. -/
def Store.hincrbyJob (st : Store) (jobId field : String) (n : Nat) : Store :=
  let cur := readNat (Store.hgetJob st jobId field)
  Store.hsetJob st jobId [(field, toString (cur + n))]

/-- `redis.lpush(queue, elem)`: insert at the left (head) end of the list. -/
def Store.lpush (st : Store) (queue elem : String) : Store :=
  { st with queues := fun q => if q = queue then elem :: st.queues queue else st.queues q }

/-- `redis.brpop(queueNames, timeout=...)`: scan the queues in order and pop
from the right (tail) end of the first non-empty one; if all are empty the
bounded wait times out and the call yields `none` (not an error). -/
def Store.brpop (st : Store) : List String → Option (String × String × Store)
  | [] => none
  | q :: rest =>
    match (st.queues q).getLast? with
    | some v =>
        some (q, v,
          { st with queues := fun k => if k = q then (st.queues q).dropLast else st.queues k })
    | none => Store.brpop st rest

/-- `redis.publish(channel, json.dumps(msg))`. -/
def Store.publish (st : Store) (channel : String) (msg : Hash) : Store :=
  { st with published := (channel, msg) :: st.published }

/-- `EnhancedWorker._update_job_status`: HSET of status/progress/message/
worker_id/updated_at followed by a publish on the job's progress channel. -/
def updateJobStatus (st : Store) (workerId jobId status : String) (progress : Nat)
    (message now : String) : Store :=
  let st1 := Store.hsetJob st jobId
    [("status", status), ("progress", toString progress), ("message", message),
     ("worker_id", workerId), ("updated_at", now)]
  Store.publish st1 ("jobs:progress:" ++ jobId)
    [("job_id", jobId), ("status", status), ("progress", toString progress), ("message", message)]

/-- Python str(x) for the value interpolated into `f'queue:{job_type}'`
when `job_info.get('type')` may be `None`. -/
def optStr : Option String → String
  | some s => s
  | none => "None"

/-- `EnhancedWorker._handle_job_failure` (worker.py): read `retry_count`;
below `max_retries`, HINCRBY it, set status `retry_scheduled`, and LPUSH the
id back onto its type queue; otherwise set status `failed` with the terminal
error and LPUSH the id onto `queue:dlq`. -/
def handleJobFailure (st : Store) (workerId : String) (maxRetries : Nat)
    (jobId errorMessage now : String) : Store :=
  let retryCount := readNat (Store.hgetJob st jobId "retry_count")
  if retryCount < maxRetries then
    let st1 := Store.hincrbyJob st jobId "retry_count" 1
    let st2 := updateJobStatus st1 workerId jobId "retry_scheduled" 0
      ("Retry " ++ toString (retryCount + 1) ++ "/" ++ toString maxRetries ++ " scheduled") now
    let jobType := Store.hgetJob st2 jobId "type"
    Store.lpush st2 ("queue:" ++ optStr jobType) jobId
  else
    let st1 := updateJobStatus st workerId jobId "failed" 0
      ("Failed after " ++ toString maxRetries ++ " retries: " ++ errorMessage) now
    Store.lpush st1 "queue:dlq" jobId

/-- Outcome of one `Processor.process` invocation: a returned boolean, or a
raised exception with its message. -/
inductive ProcResult where
  | ok (success : Bool)
  | raised (errorMessage : String)

/-- `EnhancedWorker._process_job`: load the record; an empty hash is the
"job not found" branch (returns False); a `type` other than `migration` or
`backtest` is the "unknown job type" branch (returns False); otherwise the
registered processor runs, and a raised exception is caught, routed through
`_handle_job_failure`, and surfaced as False. -/
def processJob (proc : Store → Store × ProcResult) (st : Store) (workerId : String)
    (maxRetries : Nat) (jobId now : String) : Store × Bool :=
  let jobInfo := Store.hgetallJob st jobId
  if jobInfo = [] then (st, false)
  else
    let jobType := Hash.hget jobInfo "type"
    let run : Store → Store × Bool := fun s =>
      match proc s with
      | (st1, ProcResult.ok b) => (st1, b)
      | (st1, ProcResult.raised msg) =>
          (handleJobFailure st1 workerId maxRetries jobId msg now, false)
    if jobType = some "migration" then run st
    else if jobType = some "backtest" then run st
    else (st, false)

/-- Result of one iteration of the `process_jobs` loop body. -/
inductive IterResult where
  | timeout
  | processed (jobId : String) (success : Bool)
deriving DecidableEq

/-- One iteration of `EnhancedWorker.process_jobs`: BRPOP across the active
type queues (a timeout just continues the loop); on a claimed id, write the
`running` status, run `_process_job`, and on success write `completed`. -/
def processJobsIteration (proc : Store → Store × ProcResult) (st : Store)
    (workerId : String) (maxRetries : Nat) (now dur : String) : Store × IterResult :=
  match Store.brpop st ["queue:migration", "queue:backtest"] with
  | none => (st, IterResult.timeout)
  | some (_queueName, jobId, st1) =>
    let st2 := updateJobStatus st1 workerId jobId "running" 0 ("Started by " ++ workerId) now
    match processJob proc st2 workerId maxRetries jobId now with
    | (st3, true) =>
        (updateJobStatus st3 workerId jobId "completed" 100 ("Completed in " ++ dur ++ "s") now,
         IterResult.processed jobId true)
    | (st3, false) => (st3, IterResult.processed jobId false)

/-- `n` successive iterations of the worker loop body. -/
def runIterations (proc : Store → Store × ProcResult) (workerId : String) (maxRetries : Nat)
    (now dur : String) : Nat → Store → Store
  | 0, st => st
  | Nat.succ n, st =>
      runIterations proc workerId maxRetries now dur n
        (processJobsIteration proc st workerId maxRetries now dur).1

/-- `BaseProcessor.update_progress`: HSET of only `progress` and `message`;
no publish. -/
def BaseProcessor.update_progress (st : Store) (jobId : String) (progress : Nat)
    (message : String) : Store :=
  Store.hsetJob st jobId [("progress", toString progress), ("message", message)]

/-- Circuit breaker states (worker_old.py `CircuitState`). -/
inductive CircuitState where
  | closed
  | «open»
  | half_open
deriving DecidableEq

/-- `CircuitBreaker` of worker_old.py.  Timestamps are modelled as naturals
(`time.time()` readings); `last_failure_time` starts out unset (`None`). -/
structure CircuitBreaker where
  failure_threshold : Nat
  timeout : Nat
  failure_count : Nat
  last_failure_time : Option Nat
  state : CircuitState

/-- `CircuitBreaker.__init__(failure_threshold, timeout)`. -/
def CircuitBreaker.init (failure_threshold timeout : Nat) : CircuitBreaker :=
  ⟨failure_threshold, timeout, 0, none, CircuitState.closed⟩

/-- `CircuitBreaker._on_success`: reset `failure_count`; a half-open trial
success closes the breaker. -/
def CircuitBreaker.onSuccess (cb : CircuitBreaker) : CircuitBreaker :=
  let cb1 := { cb with failure_count := 0 }
  if cb1.state = CircuitState.half_open then { cb1 with state := CircuitState.closed } else cb1

/-- `CircuitBreaker._on_failure`: bump `failure_count`, refresh
`last_failure_time`, and open the breaker once the threshold is reached. -/
def CircuitBreaker.onFailure (cb : CircuitBreaker) (now : Nat) : CircuitBreaker :=
  let cb1 := { cb with failure_count := cb.failure_count + 1, last_failure_time := some now }
  if cb1.failure_threshold ≤ cb1.failure_count then
    if cb1.state ≠ CircuitState.«open» then { cb1 with state := CircuitState.«open» } else cb1
  else cb1

/-- The open-state gate at the top of `CircuitBreaker.call`: while open and
within `timeout` of `last_failure_time`, reject (`none`, i.e. raise the
circuit-open error) without invoking the wrapped function; past the timeout,
move to half-open and let the call proceed.  `time.time() - last > timeout`
is `last + timeout < now` on naturals; in the source `last_failure_time` is
always set when the state is open. -/
def CircuitBreaker.preCheck (cb : CircuitBreaker) (now : Nat) : Option CircuitBreaker :=
  if cb.state = CircuitState.«open» then
    if cb.last_failure_time.getD 0 + cb.timeout < now then
      some { cb with state := CircuitState.half_open }
    else none
  else some cb

/-- Outcome of `CircuitBreaker.call`: rejected while open, returned normally,
or the wrapped call raised and the error was re-raised. -/
inductive CallOutcome where
  | circuitOpenError
  | returned
  | raisedWrapped
deriving DecidableEq

/-- `CircuitBreaker.call(func, ...)`, with the wrapped call's behaviour
abstracted to whether it succeeds at this invocation. -/
def CircuitBreaker.call (cb : CircuitBreaker) (now : Nat) (funcSucceeds : Bool) :
    CircuitBreaker × CallOutcome :=
  match cb.preCheck now with
  | none => (cb, CallOutcome.circuitOpenError)
  | some cb1 =>
      if funcSucceeds then (cb1.onSuccess, CallOutcome.returned)
      else (cb1.onFailure now, CallOutcome.raisedWrapped)

/-- The `job_data` dict built by `create_migration_job` (api/src/main.py);
`config` stands for the serialized config object. -/
def migrationJobData (jobId runId instrumentId config createdAt : String) : Hash :=
  [("job_id", jobId), ("type", "migration"), ("run_id", runId),
   ("instrument_id", instrumentId), ("config", config), ("status", "queued"),
   ("progress", toString 0), ("message", "Job queued"), ("created_at", createdAt)]

/-- The `job_data` dict built by `create_backtest_job` (api/src/main.py);
`strategy` stands for the serialized strategy object. -/
def backtestJobData (jobId strategy createdAt : String) : Hash :=
  [("job_id", jobId), ("type", "backtest"), ("strategy", strategy),
   ("status", "queued"), ("progress", toString 0), ("message", "Job queued"),
   ("created_at", createdAt)]

/-- The store states traversed by `create_migration_job`: initial, after the
HSET creating the record, after the LPUSH enqueueing the id, and after the
publish on `jobs:new`.  Each element is an observable intermediate state. -/
def createMigrationJobStates (st : Store) (jobId runId instrumentId config createdAt : String) :
    List Store :=
  let jobData := migrationJobData jobId runId instrumentId config createdAt
  let st1 := Store.hsetJob st jobId jobData
  let st2 := Store.lpush st1 "queue:migration" jobId
  let st3 := Store.publish st2 "jobs:new" jobData
  [st, st1, st2, st3]

/-- The store states traversed by `create_backtest_job`. -/
def createBacktestJobStates (st : Store) (jobId strategy createdAt : String) : List Store :=
  let jobData := backtestJobData jobId strategy createdAt
  let st1 := Store.hsetJob st jobId jobData
  let st2 := Store.lpush st1 "queue:backtest" jobId
  let st3 := Store.publish st2 "jobs:new" jobData
  [st, st1, st2, st3]

/-! Basic read-after-write laws for the hash and store model. -/

@[simp] theorem Hash.hsetMap_nil (h : Hash) : Hash.hsetMap h [] = h := rfl

@[simp] theorem Hash.hsetMap_cons (h : Hash) (p : String × String) (m : Hash) :
    Hash.hsetMap h (p :: m) = Hash.hsetMap (Hash.hsetField h p.1 p.2) m := rfl

@[simp] theorem Hash.hget_hsetField (h : Hash) (k v f : String) :
    Hash.hget (Hash.hsetField h k v) f = if k = f then some v else Hash.hget h f := by
  induction h with
  | nil => simp [Hash.hsetField, Hash.hget]
  | cons p rest ih =>
    obtain ⟨k1, w⟩ := p
    by_cases h1 : k1 = k
    · subst h1
      by_cases h2 : k1 = f <;> simp [Hash.hsetField, Hash.hget, h2]
    · by_cases h2 : k1 = f
      · subst h2
        simp [Hash.hsetField, Hash.hget, h1, Ne.symm h1]
      · simp [Hash.hsetField, Hash.hget, h1, h2, ih]

theorem Hash.hsetField_ne_nil (h : Hash) (k v : String) : Hash.hsetField h k v ≠ [] := by
  cases h with
  | nil => simp [Hash.hsetField]
  | cons p rest => simp only [Hash.hsetField]; split <;> simp

@[simp] theorem Store.jobs_hsetJob (st : Store) (jobId : String) (m : Hash) (j : String) :
    (Store.hsetJob st jobId m).jobs j =
      if j = jobId then Hash.hsetMap (st.jobs jobId) m else st.jobs j := rfl

@[simp] theorem Store.queues_hsetJob (st : Store) (jobId : String) (m : Hash) :
    (Store.hsetJob st jobId m).queues = st.queues := rfl

@[simp] theorem Store.published_hsetJob (st : Store) (jobId : String) (m : Hash) :
    (Store.hsetJob st jobId m).published = st.published := rfl

@[simp] theorem Store.jobs_lpush (st : Store) (q e : String) :
    (Store.lpush st q e).jobs = st.jobs := rfl

@[simp] theorem Store.published_lpush (st : Store) (q e : String) :
    (Store.lpush st q e).published = st.published := rfl

@[simp] theorem Store.queues_lpush (st : Store) (q e k : String) :
    (Store.lpush st q e).queues k = if k = q then e :: st.queues q else st.queues k := rfl

@[simp] theorem Store.jobs_publish (st : Store) (c : String) (m : Hash) :
    (Store.publish st c m).jobs = st.jobs := rfl

@[simp] theorem Store.queues_publish (st : Store) (c : String) (m : Hash) :
    (Store.publish st c m).queues = st.queues := rfl

@[simp] theorem Store.published_publish (st : Store) (c : String) (m : Hash) :
    (Store.publish st c m).published = (c, m) :: st.published := rfl

@[simp] theorem Store.hgetJob_publish (st : Store) (c : String) (m : Hash) (j f : String) :
    Store.hgetJob (Store.publish st c m) j f = Store.hgetJob st j f := rfl

@[simp] theorem Store.hgetallJob_publish (st : Store) (c : String) (m : Hash) (j : String) :
    Store.hgetallJob (Store.publish st c m) j = Store.hgetallJob st j := rfl

@[simp] theorem Store.hgetJob_lpush (st : Store) (q e j f : String) :
    Store.hgetJob (Store.lpush st q e) j f = Store.hgetJob st j f := rfl

@[simp] theorem Store.hgetallJob_lpush (st : Store) (q e j : String) :
    Store.hgetallJob (Store.lpush st q e) j = Store.hgetallJob st j := rfl

theorem Store.hgetallJob_hsetJob (st : Store) (jobId : String) (m : Hash) (j : String) :
    Store.hgetallJob (Store.hsetJob st jobId m) j =
      if j = jobId then Hash.hsetMap (st.jobs jobId) m else Store.hgetallJob st j := rfl

theorem Store.hgetJob_hsetJob (st : Store) (jobId : String) (m : Hash) (j f : String) :
    Store.hgetJob (Store.hsetJob st jobId m) j f =
      if j = jobId then Hash.hget (Hash.hsetMap (st.jobs jobId) m) f
      else Store.hgetJob st j f := by
  simp only [Store.hgetJob, Store.hsetJob]
  split <;> rfl

@[simp] theorem Store.queues_hincrbyJob (st : Store) (jobId field : String) (n : Nat) :
    (Store.hincrbyJob st jobId field n).queues = st.queues := rfl

@[simp] theorem Store.published_hincrbyJob (st : Store) (jobId field : String) (n : Nat) :
    (Store.hincrbyJob st jobId field n).published = st.published := rfl

theorem Store.hgetJob_hincrbyJob (st : Store) (jobId field : String) (n : Nat) (j f : String) :
    Store.hgetJob (Store.hincrbyJob st jobId field n) j f =
      if j = jobId then
        (if field = f then some (toString (readNat (Store.hgetJob st jobId field) + n))
         else Store.hgetJob st jobId f)
      else Store.hgetJob st j f := by
  simp only [Store.hincrbyJob, Store.hgetJob_hsetJob, Hash.hsetMap_cons, Hash.hsetMap_nil,
    Hash.hget_hsetField]
  split <;> simp [Store.hgetJob]

@[simp] theorem Store.queues_updateJobStatus (st : Store) (wid jobId s : String) (p : Nat)
    (m now : String) : (updateJobStatus st wid jobId s p m now).queues = st.queues := rfl

@[simp] theorem Store.published_updateJobStatus (st : Store) (wid jobId s : String) (p : Nat)
    (m now : String) :
    (updateJobStatus st wid jobId s p m now).published =
      ("jobs:progress:" ++ jobId,
        [("job_id", jobId), ("status", s), ("progress", toString p), ("message", m)])
        :: st.published := rfl

theorem Store.hgetJob_updateJobStatus (st : Store) (wid jobId s : String) (p : Nat)
    (m now j f : String) :
    Store.hgetJob (updateJobStatus st wid jobId s p m now) j f =
      if j = jobId then
        (if "updated_at" = f then some now
         else if "worker_id" = f then some wid
         else if "message" = f then some m
         else if "progress" = f then some (toString p)
         else if "status" = f then some s
         else Store.hgetJob st jobId f)
      else Store.hgetJob st j f := by
  simp only [updateJobStatus, Store.hgetJob_publish, Store.hgetJob_hsetJob, Hash.hsetMap_cons,
    Hash.hsetMap_nil, Hash.hget_hsetField]
  split <;> simp [Store.hgetJob]

theorem Store.hgetallJob_updateJobStatus_self (st : Store) (wid jobId s : String) (p : Nat)
    (m now : String) :
    Store.hgetallJob (updateJobStatus st wid jobId s p m now) jobId =
      Hash.hsetField
        (Hash.hsetField
          (Hash.hsetField
            (Hash.hsetField (Hash.hsetField (st.jobs jobId) "status" s) "progress" (toString p))
            "message" m)
          "worker_id" wid)
        "updated_at" now := by
  simp [updateJobStatus, Store.hgetallJob_hsetJob]

theorem Store.hgetallJob_updateJobStatus_ne_nil (st : Store) (wid jobId s : String) (p : Nat)
    (m now : String) :
    Store.hgetallJob (updateJobStatus st wid jobId s p m now) jobId ≠ [] := by
  rw [Store.hgetallJob_updateJobStatus_self]
  exact Hash.hsetField_ne_nil _ _ _

@[simp] theorem Store.brpop_nil (st : Store) : Store.brpop st [] = none := rfl

theorem Store.brpop_cons_pop (st : Store) (q : String) (rest : List String) (v : String)
    (h : (st.queues q).getLast? = some v) :
    Store.brpop st (q :: rest) =
      some (q, v,
        { st with queues := fun k => if k = q then (st.queues q).dropLast else st.queues k }) := by
  simp [Store.brpop, h]

theorem Store.brpop_cons_skip (st : Store) (q : String) (rest : List String)
    (h : (st.queues q).getLast? = none) :
    Store.brpop st (q :: rest) = Store.brpop st rest := by
  simp [Store.brpop, h]

theorem getLast?_cons_of_getLast? {α : Type} (a v : α) (l : List α)
    (h : l.getLast? = some v) : (a :: l).getLast? = some v := by
  cases l with
  | nil => simp at h
  | cons b bs => rw [List.getLast?_cons_cons, h]

@[simp] theorem natToString_zero : toString (0 : Nat) = "0" := rfl

/-- The record written by the dispatcher's `running` update over a missing
record: exactly the five written fields. -/
theorem updateRunning_phantom_record (st : Store) (wid jobId now : String)
    (hnone : st.jobs jobId = []) :
    Store.hgetallJob (updateJobStatus st wid jobId "running" 0 ("Started by " ++ wid) now)
        jobId
      = [("status", "running"), ("progress", "0"), ("message", "Started by " ++ wid),
         ("worker_id", wid), ("updated_at", now)] := by
  rw [Store.hgetallJob_updateJobStatus_self]
  simp [hnone, Hash.hsetField]

/-- `_process_job` on a claimed id whose record did not exist before the
`running` update: the hash is non-empty (created by the HSET) but has no
`type` field, so the unknown-type branch returns False and leaves the store
untouched. -/
theorem processJob_phantom (st : Store) (wid jobId now : String) (mr : Nat)
    (proc : Store → Store × ProcResult)
    (hnone : st.jobs jobId = []) :
    processJob proc (updateJobStatus st wid jobId "running" 0 ("Started by " ++ wid) now)
        wid mr jobId now
      = (updateJobStatus st wid jobId "running" 0 ("Started by " ++ wid) now, false) := by
  simp only [processJob, updateRunning_phantom_record st wid jobId now hnone]
  rfl

/-- The retry branch of `_handle_job_failure` as an explicit store
composition: HINCRBY of `retry_count`, the `retry_scheduled` status update,
then the LPUSH onto the job's type queue. -/
theorem handleJobFailure_eq_retry (st : Store) (wid : String) (mr k : Nat)
    (jobId errMsg now jt : String)
    (hk : readNat (Store.hgetJob st jobId "retry_count") = k)
    (hlt : k < mr)
    (htype : Store.hgetJob st jobId "type" = some jt) :
    handleJobFailure st wid mr jobId errMsg now =
      Store.lpush
        (updateJobStatus (Store.hincrbyJob st jobId "retry_count" 1) wid jobId
          "retry_scheduled" 0
          ("Retry " ++ toString (k + 1) ++ "/" ++ toString mr ++ " scheduled") now)
        ("queue:" ++ jt) jobId := by
  have htype2 : Store.hgetJob
      (updateJobStatus (Store.hincrbyJob st jobId "retry_count" 1) wid jobId
        "retry_scheduled" 0
        ("Retry " ++ toString (k + 1) ++ "/" ++ toString mr ++ " scheduled") now)
      jobId "type" = some jt := by
    simp [Store.hgetJob_updateJobStatus, Store.hgetJob_hincrbyJob, htype]
  rw [handleJobFailure]
  simp only [hk, if_pos hlt, htype2, optStr]

/-- The dead-letter branch of `_handle_job_failure` as an explicit store
composition: the `failed` status update with the terminal error, then the
LPUSH onto `queue:dlq`. -/
theorem handleJobFailure_eq_dlq (st : Store) (wid : String) (mr k : Nat)
    (jobId errMsg now : String)
    (hk : readNat (Store.hgetJob st jobId "retry_count") = k)
    (hge : ¬(k < mr)) :
    handleJobFailure st wid mr jobId errMsg now =
      Store.lpush
        (updateJobStatus st wid jobId "failed" 0
          ("Failed after " ++ toString mr ++ " retries: " ++ errMsg) now)
        "queue:dlq" jobId := by
  rw [handleJobFailure]
  simp only [hk, if_neg hge]

/-- One worker-loop iteration on a claimed migration/backtest job whose
processor raises: the popped id is marked running and then routed through
`_handle_job_failure` with the raised error, and `_process_job` surfaces
False. -/
theorem iterFail_afterPop (st st1 : Store) (wid jobId errMsg now dur jt qname : String)
    (mr : Nat)
    (hpop : Store.brpop st ["queue:migration", "queue:backtest"] = some (qname, jobId, st1))
    (hjobs : st1.jobs = st.jobs)
    (htype : Store.hgetJob st jobId "type" = some jt)
    (hjt : jt = "migration" ∨ jt = "backtest") :
    processJobsIteration (fun s => (s, ProcResult.raised errMsg)) st wid mr now dur
      = (handleJobFailure
          (updateJobStatus st1 wid jobId "running" 0 ("Started by " ++ wid) now)
          wid mr jobId errMsg now,
         IterResult.processed jobId false) := by
  have htype2 : Store.hgetJob
      (updateJobStatus st1 wid jobId "running" 0 ("Started by " ++ wid) now) jobId "type"
      = some jt := by
    simp only [Store.hgetJob_updateJobStatus, if_pos rfl]
    norm_num
    show Hash.hget (st1.jobs jobId) "type" = some jt
    rw [hjobs]
    exact htype
  have hty : Hash.hget
      (Store.hgetallJob
        (updateJobStatus st1 wid jobId "running" 0 ("Started by " ++ wid) now) jobId)
      "type" = some jt := htype2
  have hne := Store.hgetallJob_updateJobStatus_ne_nil st1 wid jobId "running" 0
    ("Started by " ++ wid) now
  have hpj : processJob (fun s => (s, ProcResult.raised errMsg))
      (updateJobStatus st1 wid jobId "running" 0 ("Started by " ++ wid) now) wid mr jobId now
      = (handleJobFailure
          (updateJobStatus st1 wid jobId "running" 0 ("Started by " ++ wid) now)
          wid mr jobId errMsg now, false) := by
    rw [processJob]
    rcases hjt with h | h <;> subst h <;> simp [if_neg hne, hty]
  rw [processJobsIteration, hpop]
  simp only [hpj]

/-- A failing dispatch of the only queued job while `retry_count = k < 3`:
the job ends the iteration re-queued alone on its type queue with
`retry_count = k+1`, status `retry_scheduled`, and the dead-letter queue
untouched. -/
theorem iterFail_retry_step (st : Store) (wid jobId errMsg now dur jt : String)
    (d0 : List String) (k : Nat)
    (hjt : jt = "migration" ∨ jt = "backtest")
    (hqm : st.queues "queue:migration" = (if jt = "migration" then [jobId] else []))
    (hqb : st.queues "queue:backtest" = (if jt = "backtest" then [jobId] else []))
    (hd : st.queues "queue:dlq" = d0)
    (hrc : readNat (Store.hgetJob st jobId "retry_count") = k)
    (htype : Store.hgetJob st jobId "type" = some jt)
    (hk : k < 3) :
    ((processJobsIteration (fun s => (s, ProcResult.raised errMsg)) st wid 3 now dur).1.queues
        "queue:migration" = (if jt = "migration" then [jobId] else []))
    ∧ ((processJobsIteration (fun s => (s, ProcResult.raised errMsg)) st wid 3 now
        dur).1.queues "queue:backtest" = (if jt = "backtest" then [jobId] else []))
    ∧ ((processJobsIteration (fun s => (s, ProcResult.raised errMsg)) st wid 3 now
        dur).1.queues "queue:dlq" = d0)
    ∧ Store.hgetJob (processJobsIteration (fun s => (s, ProcResult.raised errMsg)) st wid 3
        now dur).1 jobId "retry_count" = some (toString (k + 1))
    ∧ Store.hgetJob (processJobsIteration (fun s => (s, ProcResult.raised errMsg)) st wid 3
        now dur).1 jobId "type" = some jt
    ∧ Store.hgetJob (processJobsIteration (fun s => (s, ProcResult.raised errMsg)) st wid 3
        now dur).1 jobId "status" = some "retry_scheduled" := by
  rcases hjt with hjt | hjt <;> subst hjt
  · have hq1 : st.queues "queue:migration" = [jobId] := by simpa using hqm
    have hq2 : st.queues "queue:backtest" = [] := by simpa using hqb
    have hlast : (st.queues "queue:migration").getLast? = some jobId := by rw [hq1]; rfl
    have hpop := Store.brpop_cons_pop st "queue:migration" ["queue:backtest"] jobId hlast
    set T1 : Store := { st with queues := fun q => if q = "queue:migration" then
        (st.queues "queue:migration").dropLast else st.queues q } with hT1
    have hiter := iterFail_afterPop st T1 wid jobId errMsg now dur "migration"
      "queue:migration" 3 hpop rfl htype (Or.inl rfl)
    set ST2 : Store := updateJobStatus T1 wid jobId "running" 0 ("Started by " ++ wid) now
      with hST2
    have hrc2 : readNat (Store.hgetJob ST2 jobId "retry_count") = k := by
      rw [hST2]
      simp only [Store.hgetJob_updateJobStatus, if_pos rfl]
      norm_num
      exact hrc
    have htype2 : Store.hgetJob ST2 jobId "type" = some "migration" := by
      rw [hST2]
      simp only [Store.hgetJob_updateJobStatus, if_pos rfl]
      norm_num
      exact htype
    have hhf := handleJobFailure_eq_retry ST2 wid 3 k jobId errMsg now "migration" hrc2 hk
      htype2
    refine ⟨?_, ?_, ?_, ?_, ?_, ?_⟩ <;> rw [hiter] <;> simp only [hhf]
    · simp [hST2, hT1, hq1]
    · simp [hST2, hT1, hq2]
    · simp [hST2, hT1, hd]
    · simp [Store.hgetJob_updateJobStatus, Store.hgetJob_hincrbyJob, hrc2]
    · simp [Store.hgetJob_updateJobStatus, Store.hgetJob_hincrbyJob, htype2]
    · simp [Store.hgetJob_updateJobStatus]
  · have hq1 : st.queues "queue:migration" = [] := by simpa using hqm
    have hq2 : st.queues "queue:backtest" = [jobId] := by simpa using hqb
    have hnone : (st.queues "queue:migration").getLast? = none := by rw [hq1]; rfl
    have hskip := Store.brpop_cons_skip st "queue:migration" ["queue:backtest"] hnone
    have hlast : (st.queues "queue:backtest").getLast? = some jobId := by rw [hq2]; rfl
    have hpop1 := Store.brpop_cons_pop st "queue:backtest" [] jobId hlast
    have hpop : Store.brpop st ["queue:migration", "queue:backtest"] =
        some ("queue:backtest", jobId,
          { st with queues := fun q => if q = "queue:backtest" then
              (st.queues "queue:backtest").dropLast else st.queues q }) := by
      rw [hskip, hpop1]
    set T1 : Store := { st with queues := fun q => if q = "queue:backtest" then
        (st.queues "queue:backtest").dropLast else st.queues q } with hT1
    have hiter := iterFail_afterPop st T1 wid jobId errMsg now dur "backtest"
      "queue:backtest" 3 hpop rfl htype (Or.inr rfl)
    set ST2 : Store := updateJobStatus T1 wid jobId "running" 0 ("Started by " ++ wid) now
      with hST2
    have hrc2 : readNat (Store.hgetJob ST2 jobId "retry_count") = k := by
      rw [hST2]
      simp only [Store.hgetJob_updateJobStatus, if_pos rfl]
      norm_num
      exact hrc
    have htype2 : Store.hgetJob ST2 jobId "type" = some "backtest" := by
      rw [hST2]
      simp only [Store.hgetJob_updateJobStatus, if_pos rfl]
      norm_num
      exact htype
    have hhf := handleJobFailure_eq_retry ST2 wid 3 k jobId errMsg now "backtest" hrc2 hk
      htype2
    refine ⟨?_, ?_, ?_, ?_, ?_, ?_⟩ <;> rw [hiter] <;> simp only [hhf]
    · simp [hST2, hT1, hq1]
    · simp [hST2, hT1, hq2]
    · simp [hST2, hT1, hd]
    · simp [Store.hgetJob_updateJobStatus, Store.hgetJob_hincrbyJob, hrc2]
    · simp [Store.hgetJob_updateJobStatus, Store.hgetJob_hincrbyJob, htype2]
    · simp [Store.hgetJob_updateJobStatus]

/-- A failing dispatch of the only queued job once `retry_count` has reached
3: the job is marked failed with the terminal error, pushed onto the
dead-letter queue, and not re-enqueued on any type queue; `retry_count` is
left unchanged. -/
theorem iterFail_dlq_step (st : Store) (wid jobId errMsg now dur jt : String)
    (d0 : List String) (k : Nat)
    (hjt : jt = "migration" ∨ jt = "backtest")
    (hqm : st.queues "queue:migration" = (if jt = "migration" then [jobId] else []))
    (hqb : st.queues "queue:backtest" = (if jt = "backtest" then [jobId] else []))
    (hd : st.queues "queue:dlq" = d0)
    (hrc : readNat (Store.hgetJob st jobId "retry_count") = k)
    (htype : Store.hgetJob st jobId "type" = some jt)
    (hk : ¬(k < 3)) :
    ((processJobsIteration (fun s => (s, ProcResult.raised errMsg)) st wid 3 now dur).1.queues
        "queue:migration" = [])
    ∧ ((processJobsIteration (fun s => (s, ProcResult.raised errMsg)) st wid 3 now
        dur).1.queues "queue:backtest" = [])
    ∧ ((processJobsIteration (fun s => (s, ProcResult.raised errMsg)) st wid 3 now
        dur).1.queues "queue:dlq" = jobId :: d0)
    ∧ Store.hgetJob (processJobsIteration (fun s => (s, ProcResult.raised errMsg)) st wid 3
        now dur).1 jobId "retry_count" = Store.hgetJob st jobId "retry_count"
    ∧ Store.hgetJob (processJobsIteration (fun s => (s, ProcResult.raised errMsg)) st wid 3
        now dur).1 jobId "status" = some "failed"
    ∧ Store.hgetJob (processJobsIteration (fun s => (s, ProcResult.raised errMsg)) st wid 3
        now dur).1 jobId "message"
        = some ("Failed after " ++ toString 3 ++ " retries: " ++ errMsg) := by
  rcases hjt with hjt | hjt <;> subst hjt
  · have hq1 : st.queues "queue:migration" = [jobId] := by simpa using hqm
    have hq2 : st.queues "queue:backtest" = [] := by simpa using hqb
    have hlast : (st.queues "queue:migration").getLast? = some jobId := by rw [hq1]; rfl
    have hpop := Store.brpop_cons_pop st "queue:migration" ["queue:backtest"] jobId hlast
    set T1 : Store := { st with queues := fun q => if q = "queue:migration" then
        (st.queues "queue:migration").dropLast else st.queues q } with hT1
    have hiter := iterFail_afterPop st T1 wid jobId errMsg now dur "migration"
      "queue:migration" 3 hpop rfl htype (Or.inl rfl)
    set ST2 : Store := updateJobStatus T1 wid jobId "running" 0 ("Started by " ++ wid) now
      with hST2
    have hrc2 : readNat (Store.hgetJob ST2 jobId "retry_count") = k := by
      rw [hST2]
      simp only [Store.hgetJob_updateJobStatus, if_pos rfl]
      norm_num
      exact hrc
    have hhf := handleJobFailure_eq_dlq ST2 wid 3 k jobId errMsg now hrc2 hk
    refine ⟨?_, ?_, ?_, ?_, ?_, ?_⟩ <;> rw [hiter] <;> simp only [hhf]
    · simp [hST2, hT1, hq1]
    · simp [hST2, hT1, hq2]
    · simp [hST2, hT1, hd]
    · rw [hST2, hT1]
      simp [Store.hgetJob_updateJobStatus]
      rfl
    · simp [Store.hgetJob_updateJobStatus]
    · simp [Store.hgetJob_updateJobStatus]
  · have hq1 : st.queues "queue:migration" = [] := by simpa using hqm
    have hq2 : st.queues "queue:backtest" = [jobId] := by simpa using hqb
    have hnone : (st.queues "queue:migration").getLast? = none := by rw [hq1]; rfl
    have hskip := Store.brpop_cons_skip st "queue:migration" ["queue:backtest"] hnone
    have hlast : (st.queues "queue:backtest").getLast? = some jobId := by rw [hq2]; rfl
    have hpop1 := Store.brpop_cons_pop st "queue:backtest" [] jobId hlast
    have hpop : Store.brpop st ["queue:migration", "queue:backtest"] =
        some ("queue:backtest", jobId,
          { st with queues := fun q => if q = "queue:backtest" then
              (st.queues "queue:backtest").dropLast else st.queues q }) := by
      rw [hskip, hpop1]
    set T1 : Store := { st with queues := fun q => if q = "queue:backtest" then
        (st.queues "queue:backtest").dropLast else st.queues q } with hT1
    have hiter := iterFail_afterPop st T1 wid jobId errMsg now dur "backtest"
      "queue:backtest" 3 hpop rfl htype (Or.inr rfl)
    set ST2 : Store := updateJobStatus T1 wid jobId "running" 0 ("Started by " ++ wid) now
      with hST2
    have hrc2 : readNat (Store.hgetJob ST2 jobId "retry_count") = k := by
      rw [hST2]
      simp only [Store.hgetJob_updateJobStatus, if_pos rfl]
      norm_num
      exact hrc
    have hhf := handleJobFailure_eq_dlq ST2 wid 3 k jobId errMsg now hrc2 hk
    refine ⟨?_, ?_, ?_, ?_, ?_, ?_⟩ <;> rw [hiter] <;> simp only [hhf]
    · simp [hST2, hT1, hq1]
    · simp [hST2, hT1, hq2]
    · simp [hST2, hT1, hd]
    · rw [hST2, hT1]
      simp [Store.hgetJob_updateJobStatus]
      rfl
    · simp [Store.hgetJob_updateJobStatus]
    · simp [Store.hgetJob_updateJobStatus]

/-- C10: `BaseProcessor.update_progress` writes only the `progress` and
`message` fields of the job record; `status`, `worker_id`, `retry_count` and
`updated_at` are unchanged and nothing is published, whereas the dispatcher's
`_update_job_status` publishes a progress event on every call. -/
theorem c10_update_progress_frame (st : Store) (jobId : String) (p pr : Nat)
    (m wid s msg now : String) :
    Store.hgetJob (BaseProcessor.update_progress st jobId p m) jobId "progress"
        = some (toString p)
    ∧ Store.hgetJob (BaseProcessor.update_progress st jobId p m) jobId "message" = some m
    ∧ Store.hgetJob (BaseProcessor.update_progress st jobId p m) jobId "status"
        = Store.hgetJob st jobId "status"
    ∧ Store.hgetJob (BaseProcessor.update_progress st jobId p m) jobId "worker_id"
        = Store.hgetJob st jobId "worker_id"
    ∧ Store.hgetJob (BaseProcessor.update_progress st jobId p m) jobId "retry_count"
        = Store.hgetJob st jobId "retry_count"
    ∧ Store.hgetJob (BaseProcessor.update_progress st jobId p m) jobId "updated_at"
        = Store.hgetJob st jobId "updated_at"
    ∧ (BaseProcessor.update_progress st jobId p m).published = st.published
    ∧ (updateJobStatus st wid jobId s pr msg now).published =
        ("jobs:progress:" ++ jobId,
          [("job_id", jobId), ("status", s), ("progress", toString pr), ("message", msg)])
          :: st.published := by
  refine ⟨?_, ?_, ?_, ?_, ?_, ?_, rfl, rfl⟩ <;>
    simp [BaseProcessor.update_progress, Store.hgetJob]

/-- C8: calling `_update_job_status` twice with an identical
(status, progress, message) triple leaves the job record observably equal to
the record after a single call, except possibly the `updated_at` field. -/
theorem c8_update_status_idempotent (st : Store) (wid jobId s : String) (p : Nat)
    (m now1 now2 f : String) (hf : f ≠ "updated_at") :
    Store.hgetJob
        (updateJobStatus (updateJobStatus st wid jobId s p m now1) wid jobId s p m now2)
        jobId f
      = Store.hgetJob (updateJobStatus st wid jobId s p m now1) jobId f := by
  simp only [Store.hgetJob_updateJobStatus, if_pos rfl]
  have h1 : ¬("updated_at" = f) := fun h => hf h.symm
  simp only [h1, if_false]
  split_ifs <;> rfl

theorem c8_update_status_idempotent_witness :
    ("status" : String) ≠ "updated_at"
    ∧ Store.hgetJob
        (updateJobStatus (updateJobStatus Store.empty "w1" "j1" "completed" 5 "m" "t1")
          "w1" "j1" "completed" 5 "m" "t2")
        "j1" "status"
      = Store.hgetJob (updateJobStatus Store.empty "w1" "j1" "completed" 5 "m" "t1")
          "j1" "status" :=
  ⟨by decide, c8_update_status_idempotent Store.empty "w1" "j1" "completed" 5 "m" "t1" "t2"
    "status" (by decide)⟩

/-- C9: the dispatcher writes the `running` status via HSET before
`_process_job` first reads the record, and HSET creates the record key if
absent; hence the record lookup after a claim is never empty (the
"job not found" branch is unreachable for claimed ids), and an id claimed
with no pre-existing record takes the unknown-type branch, leaving a phantom
record with status `running` and no `type` field. -/
theorem c9_running_hset_creates_record (st : Store) (wid jobId now : String) (mr : Nat)
    (proc : Store → Store × ProcResult)
    (hnone : st.jobs jobId = []) :
    (∀ (st0 : Store) (p : Nat) (m : String),
        Store.hgetallJob (updateJobStatus st0 wid jobId "running" p m now) jobId ≠ [])
    ∧ Store.hgetallJob
        (updateJobStatus st wid jobId "running" 0 ("Started by " ++ wid) now) jobId
      = [("status", "running"), ("progress", "0"), ("message", "Started by " ++ wid),
         ("worker_id", wid), ("updated_at", now)]
    ∧ Store.hgetJob (updateJobStatus st wid jobId "running" 0 ("Started by " ++ wid) now)
        jobId "type" = none
    ∧ Store.hgetJob (updateJobStatus st wid jobId "running" 0 ("Started by " ++ wid) now)
        jobId "status" = some "running"
    ∧ processJob proc (updateJobStatus st wid jobId "running" 0 ("Started by " ++ wid) now)
        wid mr jobId now
      = (updateJobStatus st wid jobId "running" 0 ("Started by " ++ wid) now, false) := by
  have hrec := updateRunning_phantom_record st wid jobId now hnone
  refine ⟨fun st0 p m => Store.hgetallJob_updateJobStatus_ne_nil st0 wid jobId "running" p m now,
    hrec, ?_, ?_, processJob_phantom st wid jobId now mr proc hnone⟩
  · show Hash.hget (Store.hgetallJob _ jobId) "type" = none
    rw [hrec]; rfl
  · show Hash.hget (Store.hgetallJob _ jobId) "status" = some "running"
    rw [hrec]; rfl

theorem c9_running_hset_creates_record_witness :
    Store.empty.jobs "j1" = []
    ∧ processJob (fun s => (s, ProcResult.ok false))
        (updateJobStatus Store.empty "w1" "j1" "running" 0 ("Started by " ++ "w1") "t")
        "w1" 3 "j1" "t"
      = (updateJobStatus Store.empty "w1" "j1" "running" 0 ("Started by " ++ "w1") "t",
         false) :=
  ⟨rfl, (c9_running_hset_creates_record Store.empty "w1" "j1" "t" 3
    (fun s => (s, ProcResult.ok false)) rfl).2.2.2.2⟩

/-- C7: the bounded blocking pop yields `none` on timeout rather than an
error and the loop iteration just continues with the state unchanged; and a
popped id with no corresponding stored record is logged and discarded — the
iteration completes normally with a `false` result, the id is not re-enqueued
anywhere, and the worker keeps running. -/
theorem c7_claim_timeout_and_missing_record (proc : Store → Store × ProcResult)
    (wid : String) (mr : Nat) (now dur : String) :
    (∀ st : Store, st.queues "queue:migration" = [] → st.queues "queue:backtest" = [] →
        processJobsIteration proc st wid mr now dur = (st, IterResult.timeout))
    ∧ (∀ (st : Store) (qm : List String) (jobId : String),
        st.queues "queue:migration" = qm ++ [jobId] → st.jobs jobId = [] →
        (processJobsIteration proc st wid mr now dur).2 = IterResult.processed jobId false
        ∧ (processJobsIteration proc st wid mr now dur).1.queues "queue:migration" = qm
        ∧ (processJobsIteration proc st wid mr now dur).1.queues "queue:backtest"
            = st.queues "queue:backtest"
        ∧ (processJobsIteration proc st wid mr now dur).1.queues "queue:dlq"
            = st.queues "queue:dlq"
        ∧ Store.hgetJob (processJobsIteration proc st wid mr now dur).1 jobId "status"
            = some "running") := by
  constructor
  · intro st hm hb
    have hm1 : (st.queues "queue:migration").getLast? = none := by rw [hm]; rfl
    have hb1 : (st.queues "queue:backtest").getLast? = none := by rw [hb]; rfl
    have hpop : Store.brpop st ["queue:migration", "queue:backtest"] = none := by
      rw [Store.brpop_cons_skip st _ _ hm1, Store.brpop_cons_skip st _ _ hb1, Store.brpop_nil]
    simp [processJobsIteration, hpop]
  · intro st qm jobId hq hrec
    have hm1 : (st.queues "queue:migration").getLast? = some jobId := by
      rw [hq]; exact List.getLast?_concat qm
    set st1 : Store :=
      { st with queues := fun k => if k = "queue:migration" then
          (st.queues "queue:migration").dropLast else st.queues k } with hst1
    have hpop : Store.brpop st ["queue:migration", "queue:backtest"] =
        some ("queue:migration", jobId, st1) :=
      Store.brpop_cons_pop st _ _ jobId hm1
    have hrec1 : st1.jobs jobId = [] := hrec
    have hiter : processJobsIteration proc st wid mr now dur =
        (updateJobStatus st1 wid jobId "running" 0 ("Started by " ++ wid) now,
         IterResult.processed jobId false) := by
      rw [processJobsIteration, hpop]
      simp only [processJob_phantom st1 wid jobId now mr proc hrec1]
    rw [hiter]
    have hqm : st1.queues "queue:migration" = qm := by
      simp [hst1, hq, List.dropLast_concat]
    have hqb : st1.queues "queue:backtest" = st.queues "queue:backtest" := by
      simp [hst1]
    have hqd : st1.queues "queue:dlq" = st.queues "queue:dlq" := by
      simp [hst1]
    refine ⟨rfl, ?_, ?_, ?_, ?_⟩
    · simpa using hqm
    · simp
    · simp
    · simp [Store.hgetJob_updateJobStatus]

theorem c7_claim_timeout_and_missing_record_witness :
    Store.empty.queues "queue:migration" = []
    ∧ Store.empty.queues "queue:backtest" = []
    ∧ processJobsIteration (fun s => (s, ProcResult.ok false)) Store.empty "w1" 3 "t" "d"
        = (Store.empty, IterResult.timeout) :=
  ⟨rfl, rfl,
    (c7_claim_timeout_and_missing_record (fun s => (s, ProcResult.ok false)) "w1" 3 "t" "d").1
      Store.empty rfl rfl⟩

/-- C1: on failure of a job whose record reads `retry_count = k < max_retries`,
`_handle_job_failure` increments `retry_count` to `k+1`, sets the status to
`retry_scheduled`, and LPUSHes the id exactly once onto its type queue at the
end opposite to the one BRPOP consumes from, so it sits behind every id
already waiting. -/
theorem c1_retry_requeue (st : Store) (wid : String) (mr k : Nat)
    (jobId errMsg now jt : String)
    (hk : readNat (Store.hgetJob st jobId "retry_count") = k)
    (hlt : k < mr)
    (htype : Store.hgetJob st jobId "type" = some jt) :
    Store.hgetJob (handleJobFailure st wid mr jobId errMsg now) jobId "retry_count"
        = some (toString (k + 1))
    ∧ Store.hgetJob (handleJobFailure st wid mr jobId errMsg now) jobId "status"
        = some "retry_scheduled"
    ∧ (handleJobFailure st wid mr jobId errMsg now).queues ("queue:" ++ jt)
        = jobId :: st.queues ("queue:" ++ jt)
    ∧ ((handleJobFailure st wid mr jobId errMsg now).queues ("queue:" ++ jt)).count jobId
        = (st.queues ("queue:" ++ jt)).count jobId + 1
    ∧ (∀ q : String, q ≠ "queue:" ++ jt →
        (handleJobFailure st wid mr jobId errMsg now).queues q = st.queues q)
    ∧ (∀ v : String, (st.queues ("queue:" ++ jt)).getLast? = some v →
        ((Store.brpop (handleJobFailure st wid mr jobId errMsg now)
            ["queue:" ++ jt]).map fun r => r.2.1) = some v) := by
  have hform := handleJobFailure_eq_retry st wid mr k jobId errMsg now jt hk hlt htype
  have hqueue : (handleJobFailure st wid mr jobId errMsg now).queues ("queue:" ++ jt)
      = jobId :: st.queues ("queue:" ++ jt) := by
    rw [hform]; simp
  refine ⟨?_, ?_, hqueue, ?_, ?_, ?_⟩
  · rw [hform]
    simp [Store.hgetJob_updateJobStatus, Store.hgetJob_hincrbyJob, hk]
  · rw [hform]
    simp [Store.hgetJob_updateJobStatus, Store.hgetJob_hincrbyJob]
  · rw [hqueue]
    exact List.count_cons_self jobId _
  · intro q hne
    rw [hform]
    simp [hne]
  · intro v hv
    have hlast : ((handleJobFailure st wid mr jobId errMsg now).queues
        ("queue:" ++ jt)).getLast? = some v := by
      rw [hqueue]
      exact getLast?_cons_of_getLast? jobId v _ hv
    rw [Store.brpop_cons_pop _ _ _ v hlast]
    rfl

theorem c1_retry_requeue_witness :
    readNat (Store.hgetJob
      ⟨fun j => if j = "j1" then [("type", "migration"), ("retry_count", "1")] else [],
       fun q => if q = "queue:migration" then ["j0"] else [], []⟩ "j1" "retry_count") = 1
    ∧ 1 < 3
    ∧ Store.hgetJob
        (handleJobFailure
          ⟨fun j => if j = "j1" then [("type", "migration"), ("retry_count", "1")] else [],
           fun q => if q = "queue:migration" then ["j0"] else [], []⟩
          "w1" 3 "j1" "boom" "t") "j1" "retry_count" = some (toString (1 + 1)) :=
  ⟨by decide, by decide,
    (c1_retry_requeue
      ⟨fun j => if j = "j1" then [("type", "migration"), ("retry_count", "1")] else [],
       fun q => if q = "queue:migration" then ["j0"] else [], []⟩
      "w1" 3 1 "j1" "boom" "t" "migration" (by decide) (by decide) (by decide)).1⟩

/-- C3: with `failure_threshold = 5` and `timeout = 60`, five consecutive
failed wrapped calls open the breaker; while open, any call made strictly
before the timeout has elapsed since `last_failure_time` is rejected with the
circuit-open error without invoking the wrapped operation (the breaker is
returned unchanged, and the outcome is independent of the wrapped call's
behaviour); the first call after the timeout has elapsed passes the gate in
`half_open`, and its outcome resolves the breaker to closed with
`failure_count = 0` on success, or back to open with `last_failure_time`
refreshed on failure. -/
theorem c3_circuit_breaker_lifecycle (t1 t2 t3 t4 t5 : Nat) (cb5 : CircuitBreaker)
    (hcb5 : cb5 =
      ((((((CircuitBreaker.init 5 60).call t1 false).1.call t2 false).1.call
        t3 false).1.call t4 false).1.call t5 false).1) :
    cb5 = ⟨5, 60, 5, some t5, CircuitState.«open»⟩
    ∧ (∀ (now : Nat) (b : Bool), now < t5 + 60 →
        cb5.call now b = (cb5, CallOutcome.circuitOpenError))
    ∧ (∀ now : Nat, t5 + 60 < now →
        cb5.preCheck now = some { cb5 with state := CircuitState.half_open }
        ∧ (cb5.call now true).2 = CallOutcome.returned
        ∧ (cb5.call now true).1.state = CircuitState.closed
        ∧ (cb5.call now true).1.failure_count = 0
        ∧ (cb5.call now false).2 = CallOutcome.raisedWrapped
        ∧ (cb5.call now false).1.state = CircuitState.«open»
        ∧ (cb5.call now false).1.last_failure_time = some now) := by
  have h5 : cb5 = ⟨5, 60, 5, some t5, CircuitState.«open»⟩ := hcb5
  subst h5
  refine ⟨rfl, ?_, ?_⟩
  · intro now b h
    have hno : ¬(t5 + 60 < now) := by omega
    simp [CircuitBreaker.call, CircuitBreaker.preCheck, hno]
  · intro now h
    have hyes : t5 + 60 < now := h
    refine ⟨?_, ?_, ?_, ?_, ?_, ?_, ?_⟩ <;>
      simp [CircuitBreaker.call, CircuitBreaker.preCheck, CircuitBreaker.onSuccess,
        CircuitBreaker.onFailure, hyes]

theorem c3_circuit_breaker_lifecycle_witness :
    ((⟨5, 60, 5, some 5, CircuitState.«open»⟩ : CircuitBreaker)
        = ((((((CircuitBreaker.init 5 60).call 1 false).1.call 2 false).1.call
            3 false).1.call 4 false).1.call 5 false).1)
    ∧ (30 : Nat) < 5 + 60
    ∧ CircuitBreaker.call ⟨5, 60, 5, some 5, CircuitState.«open»⟩ 30 true
        = (⟨5, 60, 5, some 5, CircuitState.«open»⟩, CallOutcome.circuitOpenError)
    ∧ (5 : Nat) + 60 < 100
    ∧ (CircuitBreaker.call ⟨5, 60, 5, some 5, CircuitState.«open»⟩ 100 true).1.state
        = CircuitState.closed :=
  ⟨rfl, by decide,
    (c3_circuit_breaker_lifecycle 1 2 3 4 5 _ rfl).2.1 30 true (by decide),
    by decide,
    ((c3_circuit_breaker_lifecycle 1 2 3 4 5 _ rfl).2.2 100 (by decide)).2.2.1⟩

/-- C4 (counterexample): a dispatched migration job whose processor returns
False ends the iteration with status `running`, not `failed` — `process_jobs`
takes no action at all on a False result. -/
theorem c4_counterexample_false_result_not_failed :
    Store.hgetJob
        (processJobsIteration (fun s => (s, ProcResult.ok false))
          ⟨fun j => if j = "j1" then [("type", "migration"), ("status", "queued")] else [],
           fun q => if q = "queue:migration" then ["j1"] else [], []⟩
          "w1" 3 "t" "d").1 "j1" "status" ≠ some "failed"
    ∧ Store.hgetJob
        (processJobsIteration (fun s => (s, ProcResult.ok false))
          ⟨fun j => if j = "j1" then [("type", "migration"), ("status", "queued")] else [],
           fun q => if q = "queue:migration" then ["j1"] else [], []⟩
          "w1" 3 "t" "d").1 "j1" "status" = some "running" := by
  refine ⟨?_, ?_⟩ <;> decide

/-- C4 (amended): when a dispatched job's processor invocation returns False
without raising, the loop takes no further action on the record: its status
afterwards is the `running` written at dispatch (not `failed`), and nothing
reaches the dead-letter queue. -/
theorem c4_amended_false_result_leaves_running (proc : Store → Store × ProcResult)
    (hproc : ∀ s, proc s = (s, ProcResult.ok false))
    (st : Store) (qm : List String) (jobId wid now dur jt : String) (mr : Nat)
    (hq : st.queues "queue:migration" = qm ++ [jobId])
    (htype : Store.hgetJob st jobId "type" = some jt)
    (hjt : jt = "migration" ∨ jt = "backtest") :
    (processJobsIteration proc st wid mr now dur).2 = IterResult.processed jobId false
    ∧ Store.hgetJob (processJobsIteration proc st wid mr now dur).1 jobId "status"
        = some "running"
    ∧ (processJobsIteration proc st wid mr now dur).1.queues "queue:dlq"
        = st.queues "queue:dlq" := by
  have hm1 : (st.queues "queue:migration").getLast? = some jobId := by
    rw [hq]; exact List.getLast?_concat qm
  set st1 : Store :=
    { st with queues := fun k => if k = "queue:migration" then
        (st.queues "queue:migration").dropLast else st.queues k } with hst1
  have hpop : Store.brpop st ["queue:migration", "queue:backtest"] =
      some ("queue:migration", jobId, st1) :=
    Store.brpop_cons_pop st _ _ jobId hm1
  set st2 : Store := updateJobStatus st1 wid jobId "running" 0 ("Started by " ++ wid) now
    with hst2
  have htype2 : Store.hgetJob st2 jobId "type" = some jt := by
    rw [hst2]
    simp [Store.hgetJob_updateJobStatus]
    exact htype
  have hty : Hash.hget (Store.hgetallJob st2 jobId) "type" = some jt := htype2
  have hne : Store.hgetallJob st2 jobId ≠ [] := by
    rw [hst2]; exact Store.hgetallJob_updateJobStatus_ne_nil _ _ _ _ _ _ _
  have hpj : processJob proc st2 wid mr jobId now = (st2, false) := by
    rw [processJob]
    simp only [hne, if_neg, hty, hproc st2]
    rcases hjt with hjt | hjt <;> simp [hjt]
  have hiter : processJobsIteration proc st wid mr now dur =
      (st2, IterResult.processed jobId false) := by
    rw [processJobsIteration, hpop]
    simp only [hpj]
  rw [hiter]
  refine ⟨rfl, ?_, ?_⟩
  · rw [hst2]; simp [Store.hgetJob_updateJobStatus]
  · rw [hst2]; simp [hst1]

theorem c4_amended_false_result_leaves_running_witness :
    (⟨fun j => if j = "j1" then [("type", "migration")] else [],
      fun q => if q = "queue:migration" then ["j1"] else [], []⟩ : Store).queues
        "queue:migration" = [] ++ ["j1"]
    ∧ (processJobsIteration (fun s => (s, ProcResult.ok false))
        ⟨fun j => if j = "j1" then [("type", "migration")] else [],
         fun q => if q = "queue:migration" then ["j1"] else [], []⟩
        "w1" 3 "t" "d").2 = IterResult.processed "j1" false :=
  ⟨by decide,
    (c4_amended_false_result_leaves_running (fun s => (s, ProcResult.ok false))
      (fun s => rfl)
      ⟨fun j => if j = "j1" then [("type", "migration")] else [],
       fun q => if q = "queue:migration" then ["j1"] else [], []⟩
      [] "j1" "w1" "t" "d" "migration" 3 (by decide) (by decide) (Or.inl rfl)).1⟩

/-- C5 (counterexample): a claimed job whose record's type resolves to no
registered processor is not pushed onto the dead-letter queue — the dispatch
just logs and returns False, leaving the dead-letter queue empty. -/
theorem c5_counterexample_unknown_type_not_dead_lettered :
    (processJobsIteration (fun s => (s, ProcResult.ok false))
        ⟨fun j => if j = "j1" then [("type", "mystery")] else [],
         fun q => if q = "queue:migration" then ["j1"] else [], []⟩
        "w1" 3 "t" "d").1.queues "queue:dlq" = []
    ∧ (processJobsIteration (fun s => (s, ProcResult.ok false))
        ⟨fun j => if j = "j1" then [("type", "mystery")] else [],
         fun q => if q = "queue:migration" then ["j1"] else [], []⟩
        "w1" 3 "t" "d").2 = IterResult.processed "j1" false := by
  refine ⟨?_, ?_⟩ <;> decide

/-- C5 (amended): a claimed job whose type resolves to no registered
processor is logged and dropped: no dead-letter push, no `retry_count`
increment, no re-enqueue to any type queue; the record is left with the
`running` status written at dispatch. -/
theorem c5_amended_unknown_type_dropped (proc : Store → Store × ProcResult)
    (st : Store) (qm : List String) (jobId wid now dur jt : String) (mr : Nat)
    (hq : st.queues "queue:migration" = qm ++ [jobId])
    (htype : Store.hgetJob st jobId "type" = some jt)
    (h1 : jt ≠ "migration") (h2 : jt ≠ "backtest") :
    (processJobsIteration proc st wid mr now dur).2 = IterResult.processed jobId false
    ∧ (processJobsIteration proc st wid mr now dur).1.queues "queue:dlq"
        = st.queues "queue:dlq"
    ∧ (processJobsIteration proc st wid mr now dur).1.queues "queue:migration" = qm
    ∧ (processJobsIteration proc st wid mr now dur).1.queues "queue:backtest"
        = st.queues "queue:backtest"
    ∧ Store.hgetJob (processJobsIteration proc st wid mr now dur).1 jobId "retry_count"
        = Store.hgetJob st jobId "retry_count"
    ∧ Store.hgetJob (processJobsIteration proc st wid mr now dur).1 jobId "status"
        = some "running" := by
  have hm1 : (st.queues "queue:migration").getLast? = some jobId := by
    rw [hq]; exact List.getLast?_concat qm
  set st1 : Store :=
    { st with queues := fun k => if k = "queue:migration" then
        (st.queues "queue:migration").dropLast else st.queues k } with hst1
  have hpop : Store.brpop st ["queue:migration", "queue:backtest"] =
      some ("queue:migration", jobId, st1) :=
    Store.brpop_cons_pop st _ _ jobId hm1
  set st2 : Store := updateJobStatus st1 wid jobId "running" 0 ("Started by " ++ wid) now
    with hst2
  have htype2 : Store.hgetJob st2 jobId "type" = some jt := by
    rw [hst2]
    simp [Store.hgetJob_updateJobStatus]
    exact htype
  have hty : Hash.hget (Store.hgetallJob st2 jobId) "type" = some jt := htype2
  have hne : Store.hgetallJob st2 jobId ≠ [] := by
    rw [hst2]; exact Store.hgetallJob_updateJobStatus_ne_nil _ _ _ _ _ _ _
  have hpj : processJob proc st2 wid mr jobId now = (st2, false) := by
    rw [processJob]
    simp only [hne, if_neg, hty]
    simp [h1, h2]
  have hiter : processJobsIteration proc st wid mr now dur =
      (st2, IterResult.processed jobId false) := by
    rw [processJobsIteration, hpop]
    simp only [hpj]
  rw [hiter]
  refine ⟨rfl, ?_, ?_, ?_, ?_, ?_⟩
  · rw [hst2]; simp [hst1]
  · rw [hst2]; simp [hst1, hq, List.dropLast_concat]
  · rw [hst2]; simp [hst1]
  · rw [hst2]
    simp [Store.hgetJob_updateJobStatus, hst1]
    rfl
  · rw [hst2]; simp [Store.hgetJob_updateJobStatus]

theorem c5_amended_unknown_type_dropped_witness :
    (⟨fun j => if j = "j1" then [("type", "mystery")] else [],
      fun q => if q = "queue:migration" then ["j1"] else [], []⟩ : Store).queues
        "queue:migration" = [] ++ ["j1"]
    ∧ ("mystery" : String) ≠ "migration"
    ∧ (processJobsIteration (fun s => (s, ProcResult.ok false))
        ⟨fun j => if j = "j1" then [("type", "mystery")] else [],
         fun q => if q = "queue:migration" then ["j1"] else [], []⟩
        "w1" 3 "t" "d").1.queues "queue:dlq"
      = (⟨fun j => if j = "j1" then [("type", "mystery")] else [],
          fun q => if q = "queue:migration" then ["j1"] else [], []⟩ : Store).queues
          "queue:dlq" :=
  ⟨by decide, by decide,
    (c5_amended_unknown_type_dropped (fun s => (s, ProcResult.ok false))
      ⟨fun j => if j = "j1" then [("type", "mystery")] else [],
       fun q => if q = "queue:migration" then ["j1"] else [], []⟩
      [] "j1" "w1" "t" "d" "mystery" 3 (by decide) (by decide) (by decide)
      (by decide)).2.1⟩

/-- C6 (counterexample): submission is not atomic — among the observable
store states traversed by `create_migration_job` there is one (after the
record HSET, before the LPUSH) in which the job record exists but its id is
not enqueued on the type queue. -/
theorem c6_counterexample_submission_not_atomic :
    ∃ s, s ∈ createMigrationJobStates Store.empty "m1" "10" "643" "cfg" "t"
      ∧ s.jobs "m1" ≠ [] ∧ "m1" ∉ s.queues "queue:migration" := by
  refine ⟨Store.hsetJob Store.empty "m1" (migrationJobData "m1" "10" "643" "cfg" "t"),
    ?_, ?_, ?_⟩
  · simp [createMigrationJobStates]
  · decide
  · decide

/-- C6 (amended): `create_migration_job` and `create_backtest_job` perform
record creation and enqueue as two separate store operations in that order:
there is an observable intermediate state in which the record exists while
the id is not yet enqueued; conversely, in no traversed state is the id
enqueued without the record existing, and the completed submission leaves
both the record present and the id enqueued. -/
theorem c6_amended_record_before_enqueue (st : Store)
    (jobId runId instId cfg createdAt strat : String)
    (hrec : st.jobs jobId = [])
    (hqm : jobId ∉ st.queues "queue:migration")
    (hqb : jobId ∉ st.queues "queue:backtest") :
    (Store.hsetJob st jobId (migrationJobData jobId runId instId cfg createdAt)
        ∈ createMigrationJobStates st jobId runId instId cfg createdAt
      ∧ (Store.hsetJob st jobId (migrationJobData jobId runId instId cfg createdAt)).jobs
          jobId ≠ []
      ∧ jobId ∉ (Store.hsetJob st jobId
          (migrationJobData jobId runId instId cfg createdAt)).queues "queue:migration"
      ∧ (∀ s, s ∈ createMigrationJobStates st jobId runId instId cfg createdAt →
          jobId ∈ s.queues "queue:migration" → s.jobs jobId ≠ [])
      ∧ (Store.publish
          (Store.lpush
            (Store.hsetJob st jobId (migrationJobData jobId runId instId cfg createdAt))
            "queue:migration" jobId)
          "jobs:new" (migrationJobData jobId runId instId cfg createdAt)).jobs jobId ≠ []
      ∧ jobId ∈ (Store.publish
          (Store.lpush
            (Store.hsetJob st jobId (migrationJobData jobId runId instId cfg createdAt))
            "queue:migration" jobId)
          "jobs:new" (migrationJobData jobId runId instId cfg createdAt)).queues
          "queue:migration")
    ∧ (Store.hsetJob st jobId (backtestJobData jobId strat createdAt)
        ∈ createBacktestJobStates st jobId strat createdAt
      ∧ (Store.hsetJob st jobId (backtestJobData jobId strat createdAt)).jobs jobId ≠ []
      ∧ jobId ∉ (Store.hsetJob st jobId
          (backtestJobData jobId strat createdAt)).queues "queue:backtest"
      ∧ (∀ s, s ∈ createBacktestJobStates st jobId strat createdAt →
          jobId ∈ s.queues "queue:backtest" → s.jobs jobId ≠ [])
      ∧ (Store.publish
          (Store.lpush (Store.hsetJob st jobId (backtestJobData jobId strat createdAt))
            "queue:backtest" jobId)
          "jobs:new" (backtestJobData jobId strat createdAt)).jobs jobId ≠ []
      ∧ jobId ∈ (Store.publish
          (Store.lpush (Store.hsetJob st jobId (backtestJobData jobId strat createdAt))
            "queue:backtest" jobId)
          "jobs:new" (backtestJobData jobId strat createdAt)).queues "queue:backtest") := by
  have hm_ne : Hash.hsetMap (st.jobs jobId)
      (migrationJobData jobId runId instId cfg createdAt) ≠ [] := by
    simp only [migrationJobData, Hash.hsetMap_cons, Hash.hsetMap_nil]
    exact Hash.hsetField_ne_nil _ _ _
  have hb_ne : Hash.hsetMap (st.jobs jobId) (backtestJobData jobId strat createdAt) ≠ [] := by
    simp only [backtestJobData, Hash.hsetMap_cons, Hash.hsetMap_nil]
    exact Hash.hsetField_ne_nil _ _ _
  constructor
  · refine ⟨?_, ?_, ?_, ?_, ?_, ?_⟩
    · simp [createMigrationJobStates]
    · simp only [Store.jobs_hsetJob, if_pos rfl]
      exact hm_ne
    · simpa using hqm
    · intro s hs hmem
      simp only [createMigrationJobStates, List.mem_cons, List.mem_singleton,
        List.not_mem_nil] at hs
      rcases hs with h | h | h | h
      · subst h; exact absurd hmem hqm
      · subst h
        rw [Store.queues_hsetJob] at hmem
        exact absurd hmem hqm
      · subst h
        simp only [Store.jobs_lpush, Store.jobs_hsetJob, if_pos rfl]
        exact hm_ne
      · rcases h with h | h
        · subst h
          simp only [Store.jobs_publish, Store.jobs_lpush, Store.jobs_hsetJob, if_pos rfl]
          exact hm_ne
        · exact h.elim
    · simp only [Store.jobs_publish, Store.jobs_lpush, Store.jobs_hsetJob, if_pos rfl]
      exact hm_ne
    · simp
  · refine ⟨?_, ?_, ?_, ?_, ?_, ?_⟩
    · simp [createBacktestJobStates]
    · simp only [Store.jobs_hsetJob, if_pos rfl]
      exact hb_ne
    · simpa using hqb
    · intro s hs hmem
      simp only [createBacktestJobStates, List.mem_cons, List.mem_singleton,
        List.not_mem_nil] at hs
      rcases hs with h | h | h | h
      · subst h; exact absurd hmem hqb
      · subst h
        rw [Store.queues_hsetJob] at hmem
        exact absurd hmem hqb
      · subst h
        simp only [Store.jobs_lpush, Store.jobs_hsetJob, if_pos rfl]
        exact hb_ne
      · rcases h with h | h
        · subst h
          simp only [Store.jobs_publish, Store.jobs_lpush, Store.jobs_hsetJob, if_pos rfl]
          exact hb_ne
        · exact h.elim
    · simp only [Store.jobs_publish, Store.jobs_lpush, Store.jobs_hsetJob, if_pos rfl]
      exact hb_ne
    · simp

theorem c6_amended_record_before_enqueue_witness :
    Store.empty.jobs "m1" = []
    ∧ ("m1" ∉ Store.empty.queues "queue:migration")
    ∧ (Store.hsetJob Store.empty "m1" (migrationJobData "m1" "10" "643" "cfg" "t")).jobs
        "m1" ≠ [] :=
  ⟨rfl, by decide,
    (c6_amended_record_before_enqueue Store.empty "m1" "10" "643" "cfg" "t" "strat"
      rfl (by decide) (by decide)).1.2.1⟩

/-- C2: a queued job of a registered type whose processor always raises,
starting from `retry_count = 0` with `max_retries = 3`: after exactly 4
dispatch attempts (each ending in failure) the record has status `failed`
with the terminal error in the message, `retry_count = 3`, and the job id is
pushed onto the dead-letter queue exactly once; its type queue is left empty
(no further re-enqueue). -/
theorem c2_exhausted_retries_dead_letter (st F : Store) (wid jobId errMsg now dur jt : String)
    (d0 : List String)
    (hjt : jt = "migration" ∨ jt = "backtest")
    (hqm : st.queues "queue:migration" = (if jt = "migration" then [jobId] else []))
    (hqb : st.queues "queue:backtest" = (if jt = "backtest" then [jobId] else []))
    (hd : st.queues "queue:dlq" = d0)
    (hrc : readNat (Store.hgetJob st jobId "retry_count") = 0)
    (htype : Store.hgetJob st jobId "type" = some jt)
    (hF : F = runIterations (fun s => (s, ProcResult.raised errMsg)) wid 3 now dur 4 st) :
    Store.hgetJob F jobId "status" = some "failed"
    ∧ Store.hgetJob F jobId "retry_count" = some (toString 3)
    ∧ Store.hgetJob F jobId "message"
        = some ("Failed after " ++ toString 3 ++ " retries: " ++ errMsg)
    ∧ F.queues "queue:dlq" = jobId :: d0
    ∧ (F.queues "queue:dlq").count jobId = d0.count jobId + 1
    ∧ F.queues "queue:migration" = []
    ∧ F.queues "queue:backtest" = [] := by
  obtain ⟨h1m, h1b, h1d, h1rc, h1ty, h1st⟩ :=
    iterFail_retry_step st wid jobId errMsg now dur jt d0 0 hjt hqm hqb hd hrc htype
      (by decide)
  set S1 : Store :=
    (processJobsIteration (fun s => (s, ProcResult.raised errMsg)) st wid 3 now dur).1
    with hS1
  have h1rc2 : readNat (Store.hgetJob S1 jobId "retry_count") = 1 := by
    rw [h1rc]; decide
  obtain ⟨h2m, h2b, h2d, h2rc, h2ty, h2st⟩ :=
    iterFail_retry_step S1 wid jobId errMsg now dur jt d0 1 hjt h1m h1b h1d h1rc2 h1ty
      (by decide)
  set S2 : Store :=
    (processJobsIteration (fun s => (s, ProcResult.raised errMsg)) S1 wid 3 now dur).1
    with hS2
  have h2rc2 : readNat (Store.hgetJob S2 jobId "retry_count") = 2 := by
    rw [h2rc]; decide
  obtain ⟨h3m, h3b, h3d, h3rc, h3ty, h3st⟩ :=
    iterFail_retry_step S2 wid jobId errMsg now dur jt d0 2 hjt h2m h2b h2d h2rc2 h2ty
      (by decide)
  set S3 : Store :=
    (processJobsIteration (fun s => (s, ProcResult.raised errMsg)) S2 wid 3 now dur).1
    with hS3
  have h3rc2 : readNat (Store.hgetJob S3 jobId "retry_count") = 3 := by
    rw [h3rc]; decide
  obtain ⟨h4m, h4b, h4d, h4rc, h4st, h4msg⟩ :=
    iterFail_dlq_step S3 wid jobId errMsg now dur jt d0 3 hjt h3m h3b h3d h3rc2 h3ty
      (by decide)
  have hrun : F =
      (processJobsIteration (fun s => (s, ProcResult.raised errMsg)) S3 wid 3 now dur).1 := by
    rw [hF, hS3, hS2, hS1]
    rfl
  rw [hrun]
  refine ⟨h4st, ?_, h4msg, h4d, ?_, h4m, h4b⟩
  · exact h4rc.trans h3rc
  · rw [h4d]
    exact List.count_cons_self jobId d0

theorem c2_exhausted_retries_dead_letter_witness :
    readNat (Store.hgetJob
      ⟨fun j => if j = "j1" then [("type", "migration")] else [],
       fun q => if q = "queue:migration" then ["j1"] else [], []⟩ "j1" "retry_count") = 0
    ∧ Store.hgetJob
        (runIterations (fun s => (s, ProcResult.raised "boom")) "w1" 3 "t" "d" 4
          ⟨fun j => if j = "j1" then [("type", "migration")] else [],
           fun q => if q = "queue:migration" then ["j1"] else [], []⟩)
        "j1" "status" = some "failed" :=
  ⟨by decide,
    (c2_exhausted_retries_dead_letter
      ⟨fun j => if j = "j1" then [("type", "migration")] else [],
       fun q => if q = "queue:migration" then ["j1"] else [], []⟩
      (runIterations (fun s => (s, ProcResult.raised "boom")) "w1" 3 "t" "d" 4
        ⟨fun j => if j = "j1" then [("type", "migration")] else [],
         fun q => if q = "queue:migration" then ["j1"] else [], []⟩)
      "w1" "j1" "boom" "t" "d" "migration" [] (Or.inl rfl) (by decide) (by decide)
      (by decide) (by decide) (by decide) rfl).1⟩

end TradingBot
